import Mathlib

/-!
Verification of the wallet gas monitor (src/index.js) against its
natural-language specification.

The embedding models the check-evaluate-alert cycle shallowly:
JS numbers become `ℚ`, epoch-millisecond timestamps become `ℚ`,
the JSON cooldown object becomes an association list, and every
external effect (price fetch, RPC balance read, Telegram send,
file write) becomes an `Except String _` outcome parameter so that
the cycle's control flow over success and failure is explicit.
-/

namespace WalletGasMonitor

/-- One entry of `config.chains`: display name, native symbol,
CoinGecko price id, RPC endpoint. -/
structure ChainConfig where
  name : String
  symbol : String
  coingecko_id : String
  rpc : String
deriving Repr, DecidableEq

/-- The `config.solana` block (same shape as a chain config). -/
structure SolanaConfig where
  name : String
  symbol : String
  coingecko_id : String
  rpc : String
deriving Repr, DecidableEq

/-- The price map returned by `getPrices`: CoinGecko id to USD price. -/
abbrev PriceMap := List (String × ℚ)

/-- `prices[id]?.usd || 0` — a missing id (or a 0 price) yields 0. -/
def getPrice (prices : PriceMap) (id : String) : ℚ :=
  (prices.lookup id).getD 0

/-- A `BalanceReading` as pushed onto `results` in `checkEVMBalances` /
returned by `checkSolanaBalance`.  `balance` and `valueUSD` are `none`
exactly on the failure path; `error` carries the caught message. -/
structure BalanceReading where
  chain : String
  symbol : String
  balance : Option ℚ
  price : ℚ
  valueUSD : Option ℚ
  address : String
  key : String
  error : Option String
deriving Repr, DecidableEq

/-- The body of the per-chain loop in `checkEVMBalances` (src/index.js
lines 53-83).  `outcome` is the result of
`provider.getBalance` + `formatEther` + `parseFloat`: `.ok balanceNum`
on success, `.error msg` when anything in the `try` block throws. -/
def readEVMChain (evm_address : String) (prices : PriceMap) (chainKey : String)
    (chain : ChainConfig) (outcome : Except String ℚ) : BalanceReading :=
  match outcome with
  | .ok balanceNum =>
      let price := getPrice prices chain.coingecko_id
      { chain := chain.name
        symbol := chain.symbol
        balance := some balanceNum
        price := price
        valueUSD := some (balanceNum * price)
        address := evm_address
        key := "evm_" ++ chainKey
        error := none }
  | .error msg =>
      { chain := chain.name
        symbol := chain.symbol
        balance := none
        price := 0
        valueUSD := none
        address := evm_address
        key := "evm_" ++ chainKey
        error := some msg }

/-- `checkEVMBalances` (src/index.js lines 50-86): iterate the configured
chains in order, each chain's RPC outcome looked up by its chain key. -/
def checkEVMBalances (evm_address : String) (prices : PriceMap)
    (chains : List (String × ChainConfig)) (outcomes : String → Except String ℚ) :
    List BalanceReading :=
  chains.map (fun p => readEVMChain evm_address prices p.1 p.2 (outcomes p.1))

/-- `LAMPORTS_PER_SOL` from `@solana/web3.js`. -/
def LAMPORTS_PER_SOL : ℚ := 1000000000

/-- `checkSolanaBalance` (src/index.js lines 89-120).  `outcome` is the
result of `connection.getBalance` in lamports; the catch branch yields
the null-shaped reading. -/
def checkSolanaBalance (solana_address : String) (prices : PriceMap)
    (solana : SolanaConfig) (outcome : Except String ℤ) : BalanceReading :=
  match outcome with
  | .ok lamports =>
      let balanceNum : ℚ := (lamports : ℚ) / LAMPORTS_PER_SOL
      let price := getPrice prices solana.coingecko_id
      { chain := solana.name
        symbol := solana.symbol
        balance := some balanceNum
        price := price
        valueUSD := some (balanceNum * price)
        address := solana_address
        key := "solana"
        error := none }
  | .error msg =>
      { chain := solana.name
        symbol := solana.symbol
        balance := none
        price := 0
        valueUSD := none
        address := solana_address
        key := "solana"
        error := some msg }

/-- The persisted cooldown map `state.lastAlerts`: alert key to
epoch-millisecond timestamp of the last alert. -/
abbrev CooldownState := List (String × ℚ)

/-- The parsed `state.json` object. -/
structure StateFile where
  lastAlerts : CooldownState
deriving Repr, DecidableEq

/-- `loadState` (src/index.js lines 12-18): `raw` is the outcome of
`JSON.parse(fs.readFileSync(STATE_FILE))`; any throw (missing file,
unreadable file, invalid JSON) lands in the catch and yields
`{ lastAlerts: {} }`. -/
def loadState (raw : Except String StateFile) : StateFile :=
  match raw with
  | .ok s => s
  | .error _ => { lastAlerts := [] }

/-- `state.lastAlerts[r.key] || 0`. -/
def getLastAlert (state : CooldownState) (k : String) : ℚ :=
  (state.lookup k).getD 0

/-- `state.lastAlerts[k] = v`: JS object assignment — overwrite the
binding if the key is present, append it otherwise. -/
def setLastAlert : CooldownState → String → ℚ → CooldownState
  | [], k, v => [(k, v)]
  | (k', v') :: rest, k, v =>
      if k' = k then (k, v) :: rest else (k', v') :: setLastAlert rest k v

/-- `r.valueUSD !== null && r.valueUSD < config.threshold_usd`. -/
def belowThreshold (threshold : ℚ) (r : BalanceReading) : Bool :=
  match r.valueUSD with
  | some v => decide (v < threshold)
  | none => false

/-- The evaluation loop of `runCheck` (src/index.js lines 191-204):
walk the readings in order; a below-threshold reading whose cooldown
has elapsed is pushed onto `lowBalances` and its key is stamped with
`now`; otherwise the state is untouched. -/
def alertLoop (threshold cooldownMs now : ℚ) :
    List BalanceReading → CooldownState → List BalanceReading × CooldownState
  | [], state => ([], state)
  | r :: rs, state =>
      if belowThreshold threshold r ∧ now - getLastAlert state r.key > cooldownMs then
        let rest := alertLoop threshold cooldownMs now rs (setLastAlert state r.key now)
        (r :: rest.1, rest.2)
      else
        alertLoop threshold cooldownMs now rs state

/-- The environment of one `runCheck` invocation: the loaded config and
the outcome of every external effect the cycle performs.  `sendOutcome`
is the promise returned by `sendTelegramAlert` (it rejects exactly when
the HTTPS request emits an error); `saveOutcome` and `statusOutcome`
are the two `fs.writeFileSync` calls. -/
structure Env where
  chains : List (String × ChainConfig)
  solana : SolanaConfig
  evm_address : String
  solana_address : String
  threshold_usd : ℚ
  alert_cooldown_hours : ℚ
  now : ℚ
  pricesOutcome : Except String PriceMap
  evmOutcomes : String → Except String ℚ
  solOutcome : Except String ℤ
  storedState : Except String StateFile
  sendOutcome : Except String Unit
  saveOutcome : Except String Unit
  statusOutcome : Except String Unit

/-- Observable trace of one `runCheck` invocation.  `saveCalled` holds
the state object passed to `saveState` when that call was reached;
`thrown` is the exception escaping `runCheck` (as a rejected promise)
when some awaited/synchronous step threw uncaught. -/
structure CycleTrace where
  readings : List BalanceReading
  stateLoaded : Bool
  lowBalances : List BalanceReading
  sendAttempted : Bool
  saveCalled : Option CooldownState
  saveOk : Bool
  statusAttempted : Bool
  statusWritten : Bool
  thrown : Option String
deriving Repr, DecidableEq

/-- The tail of `runCheck` shared by both branches: `saveState(state)`
followed by the `latest-status.json` write; a throw in either
`fs.writeFileSync` is not caught and skips the rest. -/
def finishCycle (readings lowBalances : List BalanceReading)
    (state' : CooldownState) (sendAttempted : Bool)
    (saveOutcome statusOutcome : Except String Unit) : CycleTrace :=
  match saveOutcome with
  | .error e =>
      ⟨readings, true, lowBalances, sendAttempted, some state', false, false, false, some e⟩
  | .ok _ =>
      match statusOutcome with
      | .error e =>
          ⟨readings, true, lowBalances, sendAttempted, some state', true, true, false, some e⟩
      | .ok _ =>
          ⟨readings, true, lowBalances, sendAttempted, some state', true, true, true, none⟩

/-- `allResults` of `runCheck` (src/index.js lines 179-181): the EVM
readings in configuration order followed by the Solana reading. -/
def cycleResults (env : Env) (prices : PriceMap) : List BalanceReading :=
  checkEVMBalances env.evm_address prices env.chains env.evmOutcomes ++
    [checkSolanaBalance env.solana_address prices env.solana env.solOutcome]

/-- The evaluation stage of `runCheck` (src/index.js lines 183-204):
load the cooldown state and run the alert loop over all readings. -/
def cycleEval (env : Env) (prices : PriceMap) : List BalanceReading × CooldownState :=
  alertLoop env.threshold_usd (env.alert_cooldown_hours * 60 * 60 * 1000) env.now
    (cycleResults env prices) (loadState env.storedState).lastAlerts

/-- `runCheck` (src/index.js lines 166-244).  A price-fetch failure is
caught and returns early; balance reads never throw; the alert loop
runs over EVM readings then the Solana reading; if any alert is
eligible the Telegram send is awaited before `saveState`, and an
uncaught send rejection skips both `saveState` and the status write. -/
def runCheck (env : Env) : CycleTrace :=
  match env.pricesOutcome with
  | .error _ => ⟨[], false, [], false, none, false, false, false, none⟩
  | .ok prices =>
      let res := cycleEval env prices
      if 0 < res.1.length then
        match env.sendOutcome with
        | .error e => ⟨cycleResults env prices, true, res.1, true, none, false, false, false, some e⟩
        | .ok _ =>
            finishCycle (cycleResults env prices) res.1 res.2 true
              env.saveOutcome env.statusOutcome
      else
        finishCycle (cycleResults env prices) res.1 res.2 false
          env.saveOutcome env.statusOutcome

/-! ### Helper lemmas about the cooldown map -/

theorem lookup_setLastAlert_self (st : CooldownState) (k : String) (v : ℚ) :
    (setLastAlert st k v).lookup k = some v := by
  induction st with
  | nil => simp [setLastAlert, List.lookup]
  | cons p rest ih =>
      obtain ⟨k', v'⟩ := p
      by_cases h : k' = k
      · subst h
        simp [setLastAlert, List.lookup]
      · simp only [setLastAlert, if_neg h, List.lookup]
        rw [show (k == k') = false from beq_eq_false_iff_ne.mpr (Ne.symm h)]
        exact ih

theorem lookup_setLastAlert_ne (st : CooldownState) (k k' : String) (v : ℚ)
    (h : k' ≠ k) : (setLastAlert st k v).lookup k' = st.lookup k' := by
  induction st with
  | nil =>
      simp only [setLastAlert, List.lookup]
      rw [show (k' == k) = false from beq_eq_false_iff_ne.mpr h]
  | cons p rest ih =>
      obtain ⟨k₀, v₀⟩ := p
      by_cases h0 : k₀ = k
      · subst h0
        simp only [setLastAlert, if_pos rfl, List.lookup]
        rw [show (k' == k₀) = false from beq_eq_false_iff_ne.mpr h]
      · simp only [setLastAlert, if_neg h0, List.lookup]
        by_cases h1 : k' = k₀
        · subst h1
          simp
        · rw [show (k' == k₀) = false from beq_eq_false_iff_ne.mpr h1]
          exact ih

theorem getLastAlert_setLastAlert_ne (st : CooldownState) (k k' : String) (v : ℚ)
    (h : k' ≠ k) : getLastAlert (setLastAlert st k v) k' = getLastAlert st k' := by
  unfold getLastAlert
  rw [lookup_setLastAlert_ne st k k' v h]

theorem mem_keys_setLastAlert (st : CooldownState) (k k' : String) (v : ℚ)
    (h : k' ∈ st.map Prod.fst) : k' ∈ (setLastAlert st k v).map Prod.fst := by
  induction st with
  | nil => simp at h
  | cons p rest ih =>
      obtain ⟨k₀, v₀⟩ := p
      by_cases h0 : k₀ = k
      · subst h0
        simp only [setLastAlert, if_pos rfl, List.map, List.mem_cons] at h ⊢
        rcases h with h | h
        · exact Or.inl h
        · exact Or.inr h
      · simp only [setLastAlert, if_neg h0, List.map, List.mem_cons] at h ⊢
        rcases h with h | h
        · exact Or.inl h
        · exact Or.inr (by simpa using ih (by simpa using h))

/-! ### Helper lemmas about the alert loop -/

theorem mem_of_mem_alertLoop_low (th cd now : ℚ) :
    ∀ (rs : List BalanceReading) (st : CooldownState) (r : BalanceReading),
      r ∈ (alertLoop th cd now rs st).1 → r ∈ rs := by
  intro rs
  induction rs with
  | nil => intro st r h; simp [alertLoop] at h
  | cons x xs ih =>
      intro st r h
      simp only [alertLoop] at h
      split at h
      · simp only [List.mem_cons] at h
        rcases h with h | h
        · exact h ▸ List.mem_cons_self x xs
        · exact List.mem_cons_of_mem x (ih _ r h)
      · exact List.mem_cons_of_mem x (ih _ r h)

theorem belowThreshold_of_mem_alertLoop_low (th cd now : ℚ) :
    ∀ (rs : List BalanceReading) (st : CooldownState) (r : BalanceReading),
      r ∈ (alertLoop th cd now rs st).1 → belowThreshold th r = true := by
  intro rs
  induction rs with
  | nil => intro st r h; simp [alertLoop] at h
  | cons x xs ih =>
      intro st r h
      simp only [alertLoop] at h
      split at h
      · next hc =>
          simp only [List.mem_cons] at h
          rcases h with h | h
          · exact h ▸ hc.1
          · exact ih _ r h
      · exact ih _ r h

theorem alertLoop_lookup_of_no_alert (th cd now : ℚ) :
    ∀ (rs : List BalanceReading) (st : CooldownState) (k : String),
      (∀ r ∈ (alertLoop th cd now rs st).1, r.key ≠ k) →
      ((alertLoop th cd now rs st).2).lookup k = st.lookup k := by
  intro rs
  induction rs with
  | nil => intro st k _; rfl
  | cons x xs ih =>
      intro st k h
      simp only [alertLoop]
      split
      · next hc =>
          simp only [alertLoop, if_pos hc] at h
          have hx : x.key ≠ k := h x (List.mem_cons_self x _)
          have htail : ∀ r ∈ (alertLoop th cd now xs (setLastAlert st x.key now)).1, r.key ≠ k :=
            fun r hr => h r (List.mem_cons_of_mem x hr)
          rw [ih _ k htail, lookup_setLastAlert_ne st x.key k now (Ne.symm hx)]
      · next hc =>
          simp only [alertLoop, if_neg hc] at h
          exact ih _ k h

theorem alertLoop_lookup_of_alert (th cd now : ℚ) :
    ∀ (rs : List BalanceReading) (st : CooldownState) (k : String),
      (∃ r ∈ (alertLoop th cd now rs st).1, r.key = k) →
      ((alertLoop th cd now rs st).2).lookup k = some now := by
  intro rs
  induction rs with
  | nil => intro st k h; simp [alertLoop] at h
  | cons x xs ih =>
      intro st k h
      simp only [alertLoop]
      split
      · next hc =>
          simp only [alertLoop, if_pos hc] at h
          by_cases hex : ∃ r ∈ (alertLoop th cd now xs (setLastAlert st x.key now)).1, r.key = k
          · exact ih _ k hex
          · have hxk : x.key = k := by
              rcases h with ⟨r, hr, hrk⟩
              simp only [List.mem_cons] at hr
              rcases hr with hr | hr
              · exact hr ▸ hrk
              · exact absurd ⟨r, hr, hrk⟩ hex
            push_neg at hex
            rw [alertLoop_lookup_of_no_alert th cd now xs (setLastAlert st x.key now) k hex]
            subst hxk
            exact lookup_setLastAlert_self st x.key now
      · next hc =>
          simp only [alertLoop, if_neg hc] at h
          exact ih _ k h

theorem alertLoop_lookup_cases (th cd now : ℚ) :
    ∀ (rs : List BalanceReading) (st : CooldownState) (k : String),
      ((alertLoop th cd now rs st).2).lookup k = st.lookup k ∨
      ((alertLoop th cd now rs st).2).lookup k = some now := by
  intro rs
  induction rs with
  | nil => intro st k; exact Or.inl rfl
  | cons x xs ih =>
      intro st k
      simp only [alertLoop]
      split
      · rcases ih (setLastAlert st x.key now) k with h | h
        · by_cases hk : k = x.key
          · subst hk
            rw [lookup_setLastAlert_self st x.key now] at h
            exact Or.inr h
          · rw [lookup_setLastAlert_ne st x.key k now hk] at h
            exact Or.inl h
        · exact Or.inr h
      · exact ih st k

theorem mem_keys_alertLoop (th cd now : ℚ) :
    ∀ (rs : List BalanceReading) (st : CooldownState) (k : String),
      k ∈ st.map Prod.fst → k ∈ ((alertLoop th cd now rs st).2).map Prod.fst := by
  intro rs
  induction rs with
  | nil => intro st k h; exact h
  | cons x xs ih =>
      intro st k h
      simp only [alertLoop]
      split
      · exact ih _ k (mem_keys_setLastAlert st x.key k now h)
      · exact ih st k h

theorem mem_alertLoop_low_iff_aux (th cd now : ℚ) :
    ∀ (rs : List BalanceReading) (st₀ st : CooldownState),
      (rs.map BalanceReading.key).Nodup →
      (∀ r ∈ rs, getLastAlert st r.key = getLastAlert st₀ r.key) →
      ∀ r ∈ rs, (r ∈ (alertLoop th cd now rs st).1 ↔
        (belowThreshold th r = true ∧ now - getLastAlert st₀ r.key > cd)) := by
  intro rs
  induction rs with
  | nil => intro st₀ st _ _ r hr; simp at hr
  | cons x xs ih =>
      intro st₀ st hnodup hag r hr
      rw [List.map_cons, List.nodup_cons] at hnodup
      obtain ⟨hxnotin, hnodup'⟩ := hnodup
      simp only [List.mem_cons] at hr
      rcases hr with hr | hr
      · subst hr
        simp only [alertLoop]
        split
        · next hc =>
            simp only [List.mem_cons, true_or, true_iff]
            exact ⟨hc.1, by rw [← hag r (List.mem_cons_self r _)]; exact hc.2⟩
        · next hc =>
            constructor
            · intro hmem
              exact absurd (List.mem_map_of_mem BalanceReading.key
                (mem_of_mem_alertLoop_low th cd now xs st r hmem)) hxnotin
            · intro hrhs
              exact absurd ⟨hrhs.1, by rw [hag r (List.mem_cons_self r _)]; exact hrhs.2⟩ hc
      · have hrne : r ≠ x := by
          intro he
          exact hxnotin (he ▸ List.mem_map_of_mem BalanceReading.key hr)
        have hrkne : r.key ≠ x.key := by
          intro he
          exact hxnotin (he ▸ List.mem_map_of_mem BalanceReading.key hr)
        simp only [alertLoop]
        split
        · have hag' : ∀ r' ∈ xs, getLastAlert (setLastAlert st x.key now) r'.key =
              getLastAlert st₀ r'.key := by
            intro r' hr'
            have : r'.key ≠ x.key := by
              intro he
              exact hxnotin (he ▸ List.mem_map_of_mem BalanceReading.key hr')
            rw [getLastAlert_setLastAlert_ne st x.key r'.key now this]
            exact hag r' (List.mem_cons_of_mem x hr')
          rw [show (r ∈ x :: (alertLoop th cd now xs (setLastAlert st x.key now)).1) ↔
              (r ∈ (alertLoop th cd now xs (setLastAlert st x.key now)).1) by
            simp [List.mem_cons, hrne]]
          exact ih st₀ (setLastAlert st x.key now) hnodup' hag' r hr
        · exact ih st₀ st hnodup'
            (fun r' hr' => hag r' (List.mem_cons_of_mem x hr')) r hr

/-! ### Claim theorems -/

/-- C9: loading the cooldown store when the persisted record is missing,
unreadable, or corrupt never fails and returns the empty cooldown map
(no last-alert entries), so every key reads as never alerted
(last-alert timestamp 0). -/
theorem loadState_fallback_empty (msg : String) :
    loadState (.error msg) = { lastAlerts := [] } ∧
    ∀ k, getLastAlert (loadState (.error msg)).lastAlerts k = 0 :=
  ⟨rfl, fun _ => rfl⟩

/-- C6: every `BalanceReading` produced by the EVM reader or the Solana
reader has `valueUSD` non-null iff `balance` is non-null, and whenever
both are non-null, `valueUSD = balance * price`. -/
theorem valueUSD_iff_balance (evm_address : String) (prices : PriceMap)
    (chainKey : String) (chain : ChainConfig) (outcome : Except String ℚ)
    (solana_address : String) (solana : SolanaConfig) (solOutcome : Except String ℤ) :
    (((readEVMChain evm_address prices chainKey chain outcome).valueUSD).isSome ↔
        ((readEVMChain evm_address prices chainKey chain outcome).balance).isSome) ∧
    (∀ b v, (readEVMChain evm_address prices chainKey chain outcome).balance = some b →
        (readEVMChain evm_address prices chainKey chain outcome).valueUSD = some v →
        v = b * (readEVMChain evm_address prices chainKey chain outcome).price) ∧
    (((checkSolanaBalance solana_address prices solana solOutcome).valueUSD).isSome ↔
        ((checkSolanaBalance solana_address prices solana solOutcome).balance).isSome) ∧
    (∀ b v, (checkSolanaBalance solana_address prices solana solOutcome).balance = some b →
        (checkSolanaBalance solana_address prices solana solOutcome).valueUSD = some v →
        v = b * (checkSolanaBalance solana_address prices solana solOutcome).price) := by
  refine ⟨?_, ?_, ?_, ?_⟩
  · cases outcome <;> simp [readEVMChain]
  · intro b v hb hv
    cases outcome with
    | error m => simp [readEVMChain] at hb
    | ok bn =>
        simp only [readEVMChain, Option.some.injEq] at hb hv
        subst hb
        rw [← hv]
        simp [readEVMChain]
  · cases solOutcome <;> simp [checkSolanaBalance]
  · intro b v hb hv
    cases solOutcome with
    | error m => simp [checkSolanaBalance] at hb
    | ok lam =>
        simp only [checkSolanaBalance, Option.some.injEq] at hb hv
        subst hb
        rw [← hv]
        simp [checkSolanaBalance]

/-- C6 witness: a concrete successful reading at balance 2 and price 3
has `valueUSD = 6 = 2 * price`. -/
theorem valueUSD_iff_balance_witness :
    (6 : ℚ) = 2 * (readEVMChain "0xabc" [("ethereum", 3)] "base"
        ⟨"Base", "ETH", "ethereum", "rpc"⟩ (.ok 2)).price :=
  (valueUSD_iff_balance "0xabc" [("ethereum", 3)] "base" ⟨"Base", "ETH", "ethereum", "rpc"⟩
      (.ok 2) "sol1" ⟨"Solana", "SOL", "solana", "rpc"⟩ (.error "timeout")).2.1 2 6
    (by simp [readEVMChain])
    (by simp [readEVMChain, getPrice, List.lookup]; norm_num)

/-- C8: a reading with null `valueUSD` (failed balance read) is never
placed on the alert list and never changes the cooldown state: deleting
it from the batch leaves both the alert list and the final cooldown
state of the cycle unchanged. -/
theorem failed_reading_never_alerts (threshold cooldownMs now : ℚ)
    (xs ys : List BalanceReading) (r : BalanceReading) (st : CooldownState)
    (h : r.valueUSD = none) :
    alertLoop threshold cooldownMs now (xs ++ r :: ys) st =
      alertLoop threshold cooldownMs now (xs ++ ys) st ∧
    r ∉ (alertLoop threshold cooldownMs now (xs ++ r :: ys) st).1 := by
  have hbelow : belowThreshold threshold r = false := by
    simp [belowThreshold, h]
  constructor
  · induction xs generalizing st with
    | nil =>
        simp only [List.nil_append, alertLoop]
        rw [if_neg (by simp [hbelow])]
    | cons x xs ih =>
        simp only [List.cons_append, alertLoop]
        split
        · simp only [List.append_eq]
          rw [ih]
        · simp only [List.append_eq]
          rw [ih]
  · intro hmem
    have := belowThreshold_of_mem_alertLoop_low threshold cooldownMs now _ st r hmem
    rw [hbelow] at this
    exact Bool.false_ne_true this

/-- C8 witness: a failed Base reading below any threshold is not
alerted even though its last known value was low, and removing it
changes nothing. -/
theorem failed_reading_never_alerts_witness :
    alertLoop 50 21600000 1700000000000
        [⟨"Base", "ETH", none, 0, none, "0xabc", "evm_base", some "rpc down"⟩] [] =
      alertLoop 50 21600000 1700000000000 [] [] ∧
    (⟨"Base", "ETH", none, 0, none, "0xabc", "evm_base", some "rpc down"⟩ : BalanceReading) ∉
      (alertLoop 50 21600000 1700000000000
        [⟨"Base", "ETH", none, 0, none, "0xabc", "evm_base", some "rpc down"⟩] []).1 :=
  failed_reading_never_alerts 50 21600000 1700000000000 [] []
    ⟨"Base", "ETH", none, 0, none, "0xabc", "evm_base", some "rpc down"⟩ [] rfl

/-- C5: after evaluating one batch, every key carried by some
alert-eligible reading has cooldown timestamp exactly the batch's
`now`, and every key carried by no alert-eligible reading (suppressed
or not below threshold) has its cooldown entry exactly as loaded. -/
theorem cooldown_update_per_key (threshold cooldownMs now : ℚ)
    (rs : List BalanceReading) (state : CooldownState) (k : String) :
    ((∃ r ∈ (alertLoop threshold cooldownMs now rs state).1, r.key = k) →
        ((alertLoop threshold cooldownMs now rs state).2).lookup k = some now) ∧
    ((∀ r ∈ (alertLoop threshold cooldownMs now rs state).1, r.key ≠ k) →
        ((alertLoop threshold cooldownMs now rs state).2).lookup k = state.lookup k) :=
  ⟨alertLoop_lookup_of_alert threshold cooldownMs now rs state k,
   alertLoop_lookup_of_no_alert threshold cooldownMs now rs state k⟩

/-- C10: the cooldown map never shrinks across a cycle: every key of
the loaded state is still a key of the state passed to save, and its
timestamp is either unchanged or replaced by the cycle's `now`. -/
theorem cooldown_never_shrinks (threshold cooldownMs now : ℚ)
    (rs : List BalanceReading) (state : CooldownState) (k : String)
    (hk : k ∈ state.map Prod.fst) :
    k ∈ ((alertLoop threshold cooldownMs now rs state).2).map Prod.fst ∧
    (((alertLoop threshold cooldownMs now rs state).2).lookup k = state.lookup k ∨
      ((alertLoop threshold cooldownMs now rs state).2).lookup k = some now) :=
  ⟨mem_keys_alertLoop threshold cooldownMs now rs state k hk,
   alertLoop_lookup_cases threshold cooldownMs now rs state k⟩

/-- A concrete below-threshold reading used to exercise the alert loop. -/
def lowBaseReading : BalanceReading :=
  { chain := "Base"
    symbol := "ETH"
    balance := some 30
    price := 1
    valueUSD := some 30
    address := "0xabc"
    key := "evm_base"
    error := none }

/-- C5 witness: in a batch holding one eligible reading with key
`evm_base`, the final state stamps `evm_base` with `now` and leaves the
untouched key `solana` exactly as loaded (absent). -/
theorem cooldown_update_per_key_witness :
    ((alertLoop 50 21600000 1700000000000 [lowBaseReading] []).2).lookup "evm_base" =
      some 1700000000000 ∧
    ((alertLoop 50 21600000 1700000000000 [lowBaseReading] []).2).lookup "solana" =
      ([] : CooldownState).lookup "solana" := by
  have hlow : (alertLoop 50 21600000 1700000000000 [lowBaseReading] []).1 =
      [lowBaseReading] := by
    simp [alertLoop, belowThreshold, getLastAlert, lowBaseReading, List.lookup]
    norm_num
  refine ⟨(cooldown_update_per_key 50 21600000 1700000000000 [lowBaseReading] []
      "evm_base").1 ⟨lowBaseReading, ?_, rfl⟩,
    (cooldown_update_per_key 50 21600000 1700000000000 [lowBaseReading] [] "solana").2 ?_⟩
  · rw [hlow]
    exact List.mem_cons_self _ _
  · intro r hr
    rw [hlow] at hr
    simp only [List.mem_cons, List.not_mem_nil, or_false] at hr
    subst hr
    simp [lowBaseReading]

/-- C10 witness: a stale key `evm_old` in the loaded state survives a
batch that alerts on `evm_base`, with its timestamp unchanged. -/
theorem cooldown_never_shrinks_witness :
    "evm_old" ∈
      ((alertLoop 50 21600000 1700000000000 [lowBaseReading]
        [("evm_old", 5)]).2).map Prod.fst ∧
    (((alertLoop 50 21600000 1700000000000 [lowBaseReading]
        [("evm_old", 5)]).2).lookup "evm_old" = ([("evm_old", 5)] : CooldownState).lookup "evm_old" ∨
      ((alertLoop 50 21600000 1700000000000 [lowBaseReading]
        [("evm_old", 5)]).2).lookup "evm_old" = some 1700000000000) :=
  cooldown_never_shrinks 50 21600000 1700000000000 [lowBaseReading] [("evm_old", 5)]
    "evm_old" (by simp)

/-- C2 (amended): for a batch whose readings carry pairwise-distinct
keys (as config-derived batches always do) and whenever `now` itself
exceeds the cooldown window in milliseconds (always true for an
epoch-millisecond clock), a reading is placed on the alert list iff its
`valueUSD` is below the threshold and either its key is absent from the
loaded cooldown state or `now` minus the stored timestamp strictly
exceeds `cooldown_hours` in milliseconds.  The clock hypothesis is
forced: the code treats an absent key as timestamp 0, so a
never-alerted below-threshold reading is suppressed when
`now ≤ cooldownMs`. -/
theorem alert_eligible_iff (threshold cooldownHours now : ℚ)
    (rs : List BalanceReading) (state : CooldownState)
    (hnodup : (rs.map BalanceReading.key).Nodup)
    (hclock : cooldownHours * 60 * 60 * 1000 < now)
    (r : BalanceReading) (hr : r ∈ rs) :
    r ∈ (alertLoop threshold (cooldownHours * 60 * 60 * 1000) now rs state).1 ↔
      (belowThreshold threshold r = true ∧
        (state.lookup r.key = none ∨
          now - getLastAlert state r.key > cooldownHours * 60 * 60 * 1000)) := by
  rw [mem_alertLoop_low_iff_aux threshold (cooldownHours * 60 * 60 * 1000) now rs state state
    hnodup (fun _ _ => rfl) r hr]
  constructor
  · rintro ⟨hb, ht⟩
    exact ⟨hb, Or.inr ht⟩
  · rintro ⟨hb, hn | ht⟩
    · refine ⟨hb, ?_⟩
      unfold getLastAlert
      rw [hn]
      simpa using hclock
    · exact ⟨hb, ht⟩

/-- C2 counterexample: with `now = 1` ms and a 6-hour cooldown, a
below-threshold reading whose key was never alerted is suppressed —
the code treats the absent key as timestamp 0 and `1 - 0 > 21600000`
fails — although the claim says such a reading is always eligible. -/
theorem alert_eligible_iff_cex :
    belowThreshold 50 lowBaseReading = true ∧
    ([] : CooldownState).lookup lowBaseReading.key = none ∧
    lowBaseReading ∉ (alertLoop 50 (6 * 60 * 60 * 1000) 1 [lowBaseReading] []).1 := by
  refine ⟨?_, rfl, ?_⟩
  · simp [belowThreshold, lowBaseReading]
    norm_num
  · simp [alertLoop, belowThreshold, getLastAlert, lowBaseReading, List.lookup]
    norm_num

/-- C2 witness: at a realistic epoch-millisecond clock the same
never-alerted below-threshold reading is eligible. -/
theorem alert_eligible_iff_witness :
    lowBaseReading ∈
      (alertLoop 50 (6 * 60 * 60 * 1000) 1700000000000 [lowBaseReading] []).1 := by
  refine (alert_eligible_iff 50 6 1700000000000 [lowBaseReading] [] (by simp) (by norm_num)
      lowBaseReading (List.mem_cons_self _ _)).mpr ⟨?_, Or.inl rfl⟩
  simp [belowThreshold, lowBaseReading]
  norm_num

/-- C4: a failure while reading one chain's balance never propagates
past the balance reader: the failing chain yields a reading with
`balance = none`, `valueUSD = none`, `price = 0` and the caught error
message, a reading is still produced for every configured chain, and
the readings of all other chains are unchanged (they do not depend on
the failing chain's outcome); a Solana read failure likewise yields the
null-shaped reading. -/
theorem balance_read_failure_isolated (evm_address : String) (prices : PriceMap)
    (chains : List (String × ChainConfig)) (f g : String → Except String ℚ)
    (ck msg : String) (hf : f ck = .error msg)
    (hagree : ∀ k, k ≠ ck → g k = f k)
    (solana_address : String) (solana : SolanaConfig) (solMsg : String) :
    (checkEVMBalances evm_address prices chains f).length = chains.length ∧
    (∀ p ∈ chains, p.1 = ck →
        readEVMChain evm_address prices p.1 p.2 (f p.1) =
          { chain := p.2.name, symbol := p.2.symbol, balance := none, price := 0,
            valueUSD := none, address := evm_address, key := "evm_" ++ p.1,
            error := some msg }) ∧
    (∀ (i : ℕ) (p : String × ChainConfig), chains[i]? = some p → p.1 ≠ ck →
        (checkEVMBalances evm_address prices chains f)[i]? =
          (checkEVMBalances evm_address prices chains g)[i]?) ∧
    checkSolanaBalance solana_address prices solana (.error solMsg) =
      { chain := solana.name, symbol := solana.symbol, balance := none, price := 0,
        valueUSD := none, address := solana_address, key := "solana",
        error := some solMsg } := by
  refine ⟨by simp [checkEVMBalances], ?_, ?_, rfl⟩
  · intro p _ hpk
    rw [hpk, hf]
    rfl
  · intro i p hip hne
    simp only [checkEVMBalances, List.getElem?_map, hip, Option.map_some']
    rw [hagree p.1 hne]

/-- C4 witness: with two configured chains and the first chain's RPC
failing, the first reading is the null-shaped error reading and the
second chain's reading is independent of the first chain's outcome. -/
theorem balance_read_failure_isolated_witness :
    readEVMChain "0xabc" [("ethereum", 2000)] "base" ⟨"Base", "ETH", "ethereum", "rpc1"⟩
        ((fun k => if k = "base" then (.error "ETIMEDOUT" : Except String ℚ)
          else .ok 7) "base") =
      { chain := "Base", symbol := "ETH", balance := none, price := 0,
        valueUSD := none, address := "0xabc", key := "evm_" ++ "base",
        error := some "ETIMEDOUT" } ∧
    (checkEVMBalances "0xabc" [("ethereum", 2000)]
        [("base", ⟨"Base", "ETH", "ethereum", "rpc1"⟩),
         ("arb", ⟨"Arbitrum", "ETH", "ethereum", "rpc2"⟩)]
        (fun k => if k = "base" then .error "ETIMEDOUT" else .ok 7))[1]? =
      (checkEVMBalances "0xabc" [("ethereum", 2000)]
        [("base", ⟨"Base", "ETH", "ethereum", "rpc1"⟩),
         ("arb", ⟨"Arbitrum", "ETH", "ethereum", "rpc2"⟩)]
        (fun _ => .ok 7))[1]? := by
  have h := balance_read_failure_isolated "0xabc" [("ethereum", 2000)]
    [("base", ⟨"Base", "ETH", "ethereum", "rpc1"⟩),
     ("arb", ⟨"Arbitrum", "ETH", "ethereum", "rpc2"⟩)]
    (fun k => if k = "base" then .error "ETIMEDOUT" else .ok 7)
    (fun _ => .ok 7) "base" "ETIMEDOUT" (by simp)
    (fun k hk => by simp [hk]) "sol1" ⟨"Solana", "SOL", "solana", "rpc3"⟩ "down"
  exact ⟨h.2.1 ("base", ⟨"Base", "ETH", "ethereum", "rpc1"⟩) (by simp) rfl,
    h.2.2.1 1 ("arb", ⟨"Arbitrum", "ETH", "ethereum", "rpc2"⟩) rfl (by simp)⟩

/-! ### Cycle-level helper lemmas and concrete environments -/

theorem finishCycle_lowBalances (a b : List BalanceReading) (c : CooldownState)
    (d : Bool) (s t : Except String Unit) : (finishCycle a b c d s t).lowBalances = b := by
  cases s <;> cases t <;> rfl

theorem finishCycle_save_error (a b : List BalanceReading) (c : CooldownState)
    (d : Bool) (e : String) (t : Except String Unit) :
    finishCycle a b c d (.error e) t =
      ⟨a, true, b, d, some c, false, false, false, some e⟩ := rfl

theorem finishCycle_status_error (a b : List BalanceReading) (c : CooldownState)
    (d : Bool) (e : String) :
    finishCycle a b c d (.ok ()) (.error e) =
      ⟨a, true, b, d, some c, true, true, false, some e⟩ := rfl

/-- C3: if the price fetch fails, the cycle aborts before anything
else: no reading is produced, no alert is attempted, the cooldown state
is neither loaded nor saved, the status snapshot is not written, and no
exception escapes (the process just waits for the next tick). -/
theorem price_fetch_failure_aborts (env : Env) (e : String)
    (h : env.pricesOutcome = .error e) :
    runCheck env = ⟨[], false, [], false, none, false, false, false, none⟩ := by
  unfold runCheck
  rw [h]

/-- Concrete environment whose price fetch fails. -/
def envC3 : Env :=
  { chains := [("base", ⟨"Base", "ETH", "ethereum", "rpc1"⟩)]
    solana := ⟨"Solana", "SOL", "solana", "rpc2"⟩
    evm_address := "0xabc"
    solana_address := "sol1"
    threshold_usd := 50
    alert_cooldown_hours := 6
    now := 1700000000000
    pricesOutcome := .error "socket hang up"
    evmOutcomes := fun _ => .ok 1
    solOutcome := .ok 1000000000
    storedState := .ok { lastAlerts := [("evm_base", 5)] }
    sendOutcome := .ok ()
    saveOutcome := .ok ()
    statusOutcome := .ok () }

/-- C3 witness: the concrete failing-price cycle yields the empty
trace. -/
theorem price_fetch_failure_aborts_witness :
    runCheck envC3 = ⟨[], false, [], false, none, false, false, false, none⟩ :=
  price_fetch_failure_aborts envC3 "socket hang up" rfl

/-- C1 (amended): a notification delivery failure is logged at the
transport layer but is NOT recovered by the cycle: whenever at least
one alert is eligible and the Telegram send rejects, `saveState` is
never called, the status snapshot is never written, and the rejection
escapes `runCheck` uncaught.  The cooldown save and status write
execute only when the send resolves. -/
theorem notification_failure_blocks_persistence (env : Env) (e : String)
    (hlow : (runCheck env).lowBalances ≠ [])
    (hsend : env.sendOutcome = .error e) :
    (runCheck env).sendAttempted = true ∧
    (runCheck env).saveCalled = none ∧
    (runCheck env).statusAttempted = false ∧
    (runCheck env).thrown = some e := by
  rcases hp : env.pricesOutcome with e' | prices
  · exfalso
    apply hlow
    unfold runCheck
    rw [hp]
  · simp only [runCheck, hp] at hlow ⊢
    by_cases hc : 0 < (cycleEval env prices).1.length
    · simp [if_pos hc, hsend]
    · exfalso
      simp only [if_neg hc, finishCycle_lowBalances] at hlow
      exact hlow (List.eq_nil_of_length_eq_zero (by omega))

/-- Concrete environment with an eligible alert (both wallets at value
USD 0, never alerted before) whose Telegram send rejects. -/
def envC1 : Env :=
  { chains := [("base", ⟨"Base", "ETH", "ethereum", "rpc1"⟩)]
    solana := ⟨"Solana", "SOL", "solana", "rpc2"⟩
    evm_address := "0x1234567890123456789012345678901234567890"
    solana_address := "So11111111111111111111111111111111111111112"
    threshold_usd := 50
    alert_cooldown_hours := 6
    now := 1700000000000
    pricesOutcome := .ok [("ethereum", 2000), ("solana", 100)]
    evmOutcomes := fun _ => .ok 0
    solOutcome := .ok 0
    storedState := .error "ENOENT"
    sendOutcome := .error "ECONNRESET"
    saveOutcome := .ok ()
    statusOutcome := .ok () }

/-- The EVM reading `envC1` produces (balance 0 at price 2000). -/
def envC1evmReading : BalanceReading :=
  { chain := "Base"
    symbol := "ETH"
    balance := some 0
    price := 2000
    valueUSD := some 0
    address := "0x1234567890123456789012345678901234567890"
    key := "evm_base"
    error := none }

/-- The Solana reading `envC1` produces (balance 0 at price 100). -/
def envC1solReading : BalanceReading :=
  { chain := "Solana"
    symbol := "SOL"
    balance := some 0
    price := 100
    valueUSD := some 0
    address := "So11111111111111111111111111111111111111112"
    key := "solana"
    error := none }

theorem runCheck_envC1 :
    runCheck envC1 =
      ⟨[envC1evmReading, envC1solReading], true, [envC1evmReading, envC1solReading],
        true, none, false, false, false, some "ECONNRESET"⟩ := by
  simp [runCheck, envC1, cycleEval, cycleResults, checkEVMBalances, readEVMChain,
    checkSolanaBalance, loadState, alertLoop, belowThreshold, getLastAlert, getPrice,
    List.lookup, LAMPORTS_PER_SOL, finishCycle, envC1evmReading, envC1solReading]
  norm_num

theorem envC1_lowBalances_ne : (runCheck envC1).lowBalances ≠ [] := by
  rw [runCheck_envC1]
  simp

/-- C1 counterexample: in `envC1` an alert is eligible and the send
fails, yet the cooldown save does not execute and the status snapshot
is not written — refuting the claim that both still execute. -/
theorem notification_failure_cex :
    (runCheck envC1).lowBalances ≠ [] ∧
    Env.sendOutcome envC1 = .error "ECONNRESET" ∧
    (runCheck envC1).saveCalled = none ∧
    (runCheck envC1).statusAttempted = false := by
  refine ⟨envC1_lowBalances_ne, rfl, ?_, ?_⟩ <;> rw [runCheck_envC1]

/-- C1 witness: the amended theorem applied to `envC1`. -/
theorem notification_failure_blocks_persistence_witness :
    (runCheck envC1).sendAttempted = true ∧
    (runCheck envC1).saveCalled = none ∧
    (runCheck envC1).statusAttempted = false ∧
    (runCheck envC1).thrown = some "ECONNRESET" :=
  notification_failure_blocks_persistence envC1 "ECONNRESET" envC1_lowBalances_ne rfl

/-- C7 (amended): a failure of the cooldown-state save or of the
status-snapshot write is NOT recovered by the cycle: once the price
fetch succeeded and the send did not reject, a `saveState` failure
throws out of `runCheck` uncaught and skips the status write, and a
status-write failure likewise throws out of `runCheck` uncaught;
neither is caught or logged inside the cycle. -/
theorem persistence_failure_propagates (env : Env) (p : PriceMap) (e : String)
    (hp : env.pricesOutcome = .ok p) (hsend : env.sendOutcome = .ok ()) :
    (env.saveOutcome = .error e →
        (runCheck env).saveCalled.isSome = true ∧ (runCheck env).saveOk = false ∧
        (runCheck env).statusAttempted = false ∧ (runCheck env).thrown = some e) ∧
    (env.saveOutcome = .ok () → env.statusOutcome = .error e →
        (runCheck env).statusAttempted = true ∧ (runCheck env).statusWritten = false ∧
        (runCheck env).thrown = some e) := by
  simp only [runCheck, hp]
  by_cases hc : 0 < (cycleEval env p).1.length
  · simp only [if_pos hc, hsend]
    constructor
    · intro hs
      rw [hs, finishCycle_save_error]
      exact ⟨rfl, rfl, rfl, rfl⟩
    · intro hs ht
      rw [hs, ht, finishCycle_status_error]
      exact ⟨rfl, rfl, rfl⟩
  · simp only [if_neg hc]
    constructor
    · intro hs
      rw [hs, finishCycle_save_error]
      exact ⟨rfl, rfl, rfl, rfl⟩
    · intro hs ht
      rw [hs, ht, finishCycle_status_error]
      exact ⟨rfl, rfl, rfl⟩

/-- Concrete environment with healthy balances (no alert) whose
cooldown save fails. -/
def envC7 : Env :=
  { chains := [("base", ⟨"Base", "ETH", "ethereum", "rpc1"⟩)]
    solana := ⟨"Solana", "SOL", "ethereum", "rpc2"⟩
    evm_address := "0xabc"
    solana_address := "sol1"
    threshold_usd := 50
    alert_cooldown_hours := 6
    now := 1700000000000
    pricesOutcome := .ok [("ethereum", 2000)]
    evmOutcomes := fun _ => .ok 1
    solOutcome := .ok 1000000000
    storedState := .ok { lastAlerts := [] }
    sendOutcome := .ok ()
    saveOutcome := .error "EACCES"
    statusOutcome := .ok () }

/-- C7 counterexample: in `envC7` the cooldown save fails; the
exception escapes `runCheck` uncaught and even the status write is
skipped — refuting the claim that the failure is recovered locally and
the cycle still succeeds. -/
theorem persistence_failure_cex :
    Env.saveOutcome envC7 = .error "EACCES" ∧
    (runCheck envC7).thrown = some "EACCES" ∧
    (runCheck envC7).statusAttempted = false := by
  refine ⟨rfl, ?_, ?_⟩ <;>
    · norm_num [runCheck, envC7, cycleEval, cycleResults, checkEVMBalances, readEVMChain,
        checkSolanaBalance, loadState, alertLoop, belowThreshold, getLastAlert, getPrice,
        List.lookup, LAMPORTS_PER_SOL, finishCycle]

/-- C7 witness: the amended theorem applied to `envC7`. -/
theorem persistence_failure_propagates_witness :
    (runCheck envC7).saveCalled.isSome = true ∧ (runCheck envC7).saveOk = false ∧
    (runCheck envC7).statusAttempted = false ∧ (runCheck envC7).thrown = some "EACCES" :=
  (persistence_failure_propagates envC7 [("ethereum", 2000)] "EACCES" rfl rfl).1 rfl

end WalletGasMonitor
